import Mathlib

/-!
Verification development for the EcoQuest backend (`backend/server.py`).

The file shallow-embeds the pure logic of the service in Lean:
the CO₂ impact estimator (`calculate_co2_impact`), the rule-based
suggestion generator (`generate_suggestions`), the AI content
generator's provider-fallback cascade (`generate_ai_content`), the
onboarding fallback path construction (`complete_onboarding`'s parse
branch), the `get_user` handler's error flow, and the `user_progress`
upsert performed by `calculate_impact`.

Python `float` values in the source are modelled as rationals (`ℚ`):
every coefficient in the source is an exact decimal, and the claims'
tolerances (0.1) vastly exceed binary floating-point rounding for
these magnitudes.  Strings are Lean `String`s; Python `dict.get` on
the literal coefficient tables is modelled by association-list lookup.
-/

namespace EcoQuest

/-- Python `dict.get(key, default)` over an association list with
string keys (the source's coefficient tables have distinct keys, so
first-match lookup coincides with dict lookup). -/
def dictGet : List (String × ℚ) → String → ℚ → ℚ
  | [], _, d => d
  | (k, v) :: rest, key, d => if key = k then v else dictGet rest key d

/-- The `transport_values` table of `calculate_co2_impact`. -/
def transport_values : List (String × ℚ) :=
  [("car", 6.5), ("bike", 0.0), ("walk", 0.0), ("public", 2.1)]

/-- The `diet_values` table of `calculate_co2_impact`. -/
def diet_values : List (String × ℚ) :=
  [("meat", 7.2), ("vegetarian", 3.8), ("vegan", 2.9), ("pescatarian", 4.1)]

/-- The `energy_values` table of `calculate_co2_impact`. -/
def energy_values : List (String × ℚ) :=
  [("low", 2.1), ("medium", 4.8), ("high", 8.2)]

/-- The `waste_values` table of `calculate_co2_impact`. -/
def waste_values : List (String × ℚ) :=
  [("minimal", 0.8), ("average", 2.3), ("high", 4.1)]

/-- The dict returned by `calculate_co2_impact`. -/
structure ImpactData where
  daily_co2 : ℚ
  weekly_co2 : ℚ
  yearly_co2 : ℚ
  deriving Repr, DecidableEq

/-- Embedding of `calculate_co2_impact` from `backend/server.py` (lines 149–167):
the four `dict.get` lookups with the source's defaults, summed, then
the weekly and yearly multiples. -/
def calculate_co2_impact (transport diet energy waste : String) : ImpactData :=
  let daily_co2 :=
    dictGet transport_values transport 6.5 +
    dictGet diet_values diet 7.2 +
    dictGet energy_values energy 4.8 +
    dictGet waste_values waste 2.3
  { daily_co2 := daily_co2
    weekly_co2 := daily_co2 * 7
    yearly_co2 := daily_co2 * 365 }

/-- The constant transport suggestion string from `generate_suggestions`. -/
def sugTransport : String := "🚴 Try biking or walking for short trips - save 6.5kg CO2/day"

/-- The constant diet suggestion string from `generate_suggestions`. -/
def sugDiet : String := "🥗 Reduce meat consumption 2-3 days/week - save up to 3kg CO2/day"

/-- The constant energy suggestion string from `generate_suggestions`. -/
def sugEnergy : String := "💡 Switch to LED bulbs and unplug devices - save 2-4kg CO2/day"

/-- The constant waste suggestion string from `generate_suggestions`. -/
def sugWaste : String := "♻️ Start composting and reduce packaging - save 1-2kg CO2/day"

/-- Embedding of `generate_suggestions` from `backend/server.py` (lines 169–181):
starts from the empty list and appends each category's constant
suggestion when its trigger value matches, in the source's fixed
order (transport, diet, energy, waste). -/
def generate_suggestions (transport diet energy waste : String) : List String :=
  (if transport = "car" then [sugTransport] else []) ++
  (if diet = "meat" then [sugDiet] else []) ++
  (if energy = "high" then [sugEnergy] else []) ++
  (if waste = "high" then [sugWaste] else [])

/-- Python whitespace test used by `str.strip()` with no argument,
restricted to the ASCII whitespace characters (space, tab, newline,
carriage return, vertical tab, form feed); no other characters occur
at the ends of the strings these claims are about. -/
def isPySpace (c : Char) : Bool :=
  c == ' ' || c == '\t' || c == '\n' || c == '\r' || c.toNat == 11 || c.toNat == 12

/-- Python `str.strip()`: drop leading and trailing whitespace. -/
def pyStrip (s : String) : String :=
  String.mk (((s.toList.dropWhile isPySpace).reverse.dropWhile isPySpace).reverse)

/-- Python `str.title()` for ASCII text: the first character of each
alphabetic run is uppercased, the rest of the run lowercased. -/
def pyTitleAux : Bool → List Char → List Char
  | _, [] => []
  | prevAlpha, c :: cs =>
    (if prevAlpha then c.toLower else c.toUpper) :: pyTitleAux c.isAlpha cs

/-- Python `str.title()` on a whole string. -/
def pyTitle (s : String) : String :=
  String.mk (pyTitleAux false s.toList)

/-- The fixed degraded-service string returned by `generate_ai_content`
when every provider path has failed (server.py line 259). -/
def degradedMsg : String :=
  "AI service is currently unavailable. Please ensure Groq API key is properly configured."

/-- The substitute text used when the Gemini fallback succeeds but its
`response.text` is empty/None (server.py line 252). -/
def emptyGeminiMsg : String := "Sorry, I couldn't generate a response."

/-- Key check `if not groq_api_key or groq_api_key == "your_groq_api_key_here"`
(server.py line 191): the key is usable iff present, non-empty (Python
truthiness) and not the placeholder. -/
def groqKeyValid : Option String → Bool
  | none => false
  | some k => !(k == "") && !(k == "your_groq_api_key_here")

/-- Key check `if gemini_api_key and gemini_api_key != "your_gemini_api_key_here"`
(server.py line 242). -/
def geminiKeyValid : Option String → Bool
  | none => false
  | some k => !(k == "") && !(k == "your_gemini_api_key_here")

/-- Embedding of `generate_ai_content` from `backend/server.py` (lines 183–261),
with the two external provider calls abstracted as outcome parameters:

* `primaryResult` is the outcome of the Groq call — `.ok t` means the
  provider returned message content `t` (both the structured-JSON and
  the regular-chat branch return `content.strip()` of that text),
  `.error e` means the call raised;
* `secondaryResult` is the outcome of the Gemini call — `.ok (some t)`
  a truthy `response.text = t` (returned as `t.strip()`), `.ok none` a
  falsy `response.text` (replaced by `emptyGeminiMsg`), `.error e` a
  raised exception.

An invalid Groq key raises `ValueError` inside the outer `try`, which
lands in the same `except` as a failed Groq call.  The function is
total: the Python original catches every exception and always returns
a string. -/
def generate_ai_content (_prompt _system_message : String) (groqKey : Option String)
    (primaryResult : Except String String) (geminiKey : Option String)
    (secondaryResult : Except String (Option String)) : String :=
  let tryBody : Except String String :=
    if groqKeyValid groqKey then primaryResult.map pyStrip
    else .error "Groq API key not configured properly"
  match tryBody with
  | .ok content => content
  | .error _ =>
    -- Gemini fallback: a `return` only happens when the key is valid
    -- and the call does not raise; otherwise control falls through to
    -- the fixed degraded-service string.
    if geminiKeyValid geminiKey then
      match secondaryResult with
      | .ok (some t) => pyStrip t
      | .ok none => emptyGeminiMsg
      | .error _ => degradedMsg
    else degradedMsg

/-- Python values as produced by the onboarding fallback dict literal. -/
inductive PyVal where
  | str (s : String)
  | int (n : Int)
  | list (xs : List PyVal)
  | dict (kvs : List (String × PyVal))

/-- First-match key lookup in a list of dict entries. -/
def lookupKV : List (String × PyVal) → String → Option PyVal
  | [], _ => none
  | (k, v) :: rest, key => if key = k then some v else lookupKV rest key

/-- Look a key up in a `PyVal.dict` (first match; the source dicts have
distinct keys). -/
def PyVal.get : PyVal → String → Option PyVal
  | .dict kvs, key => lookupKV kvs key
  | _, _ => none

/-- The static fallback `personalized_path` built by `complete_onboarding`
when the AI response is not valid JSON (server.py lines 306–322):
`interests_text` joins the first two interests (or the default phrase
for an empty list), `first_interest` is the first interest (default
`"climate"`), and the second module title interpolates
`first_interest.title()`. -/
def onboardingFallbackPath (interests : List String) : PyVal :=
  let interests_text :=
    if interests.isEmpty then "climate change and sustainability"
    else String.intercalate ", " (interests.take 2)
  let first_interest := interests.headD "climate"
  .dict [
    ("welcome_message", .str ("Welcome to EcoQuest! Ready to become a climate hero? Based on your interests in "
      ++ interests_text ++ ", we've created an exciting journey just for you!")),
    ("learning_modules", .list [
      .dict [("title", .str "Climate Basics"), ("icon", .str "🌍"), ("progress", .int 0)],
      .dict [("title", .str (pyTitle first_interest ++ " Deep Dive")), ("icon", .str "🔍"), ("progress", .int 0)],
      .dict [("title", .str "Carbon Footprint"), ("icon", .str "👣"), ("progress", .int 0)],
      .dict [("title", .str "Green Solutions"), ("icon", .str "🌱"), ("progress", .int 0)],
      .dict [("title", .str "Take Action"), ("icon", .str "⚡"), ("progress", .int 0)]
    ]),
    ("first_quest", .str "Calculate your carbon footprint and discover 3 easy ways to reduce it today!"),
    ("daily_tip", .str "Did you know? Unplugging devices when not in use can save up to 10% on your electricity bill!")
  ]

/-- The `personalized_path` selection in `complete_onboarding` (lines
300–322): `json.loads(ai_response)` when it parses, else the static
fallback.  The parse outcome is abstracted as `parsed`. -/
def onboardingPersonalizedPath (interests : List String) (parsed : Option PyVal) : PyVal :=
  match parsed with
  | some v => v
  | none => onboardingFallbackPath interests

/-- The ordered list of module titles of a `personalized_path`. -/
def moduleTitles (p : PyVal) : List String :=
  match p.get "learning_modules" with
  | some (.list ms) => ms.filterMap (fun m =>
      match m.get "title" with
      | some (.str t) => some t
      | _ => none)
  | _ => []

/-- A stored `users` document (the fields of the `User` model that the
`get_user` handler returns; identity is the `id` field). -/
structure UserRec where
  id : String
  age : Int
  knowledge_level : String
  deriving DecidableEq, Repr

/-- Model of the lookup performed by the user query: first stored document whose
`id` equals the requested identifier. -/
def findOneUser : List UserRec → String → Option UserRec
  | [], _ => none
  | u :: rest, uid => if u.id = uid then some u else findOneUser rest uid

/-- An `HTTPException` as raised by the handlers. -/
structure HTTPErrorResp where
  status_code : Nat
  detail : String
  deriving DecidableEq, Repr

/-- Embedding of `get_user` from `backend/server.py` (lines 469–481).  The handler
body raises `HTTPException(404, "User not found")` when the lookup is
empty — but that raise happens inside the handler's own
`try ... except Exception`, and `HTTPException` is a subclass of
`Exception`, so the 404 is caught and re-raised as
`HTTPException(500, "Failed to retrieve user")`.  The embedding keeps
that control flow exactly. -/
def get_user (store : List UserRec) (user_id : String) : Except HTTPErrorResp UserRec :=
  let body : Except HTTPErrorResp UserRec :=
    match findOneUser store user_id with
    | none => .error ⟨404, "User not found"⟩
    | some u => .ok u
  match body with
  | .ok u => .ok u
  | .error _ => .error ⟨500, "Failed to retrieve user"⟩

/-- A stored `user_progress` document (the `UserProgress` model).
`last_activity` (`datetime.utcnow()`) is an abstract timestamp. -/
structure UserProgressRec where
  user_id : String
  current_co2_footprint : ℚ
  daily_habits : List (String × String)
  completed_actions : List String
  streak_days : Nat
  last_activity : Nat
  deriving DecidableEq, Repr

/-- Model of the store's replace-one-with-upsert operation on the user-id filter:
replace the first document matching the filter, or append the new
document when none matches. -/
def replaceOneUpsert : List UserProgressRec → String → UserProgressRec → List UserProgressRec
  | [], _, doc => [doc]
  | r :: rest, uid, doc =>
    if r.user_id = uid then doc :: rest else r :: replaceOneUpsert rest uid doc

/-- The `UserProgress` document built by `calculate_impact` (server.py
lines 364–373): footprint is the freshly computed `daily_co2`, the four
habit fields are stored under the keys `transport`/`diet`/`energy`/
`waste`, and `completed_actions`/`streak_days` take their model
defaults `[]` and `0`. -/
def calculateImpactProgress (user_id transport diet energy waste : String) (now : Nat) : UserProgressRec :=
  { user_id := user_id
    current_co2_footprint := (calculate_co2_impact transport diet energy waste).daily_co2
    daily_habits := [("transport", transport), ("diet", diet), ("energy", energy), ("waste", waste)]
    completed_actions := []
    streak_days := 0
    last_activity := now }

/-- The effect of a successful `calculate_impact` call on the
`user_progress` collection (server.py lines 375–379). -/
def calculate_impact_store (store : List UserProgressRec)
    (user_id transport diet energy waste : String) (now : Nat) : List UserProgressRec :=
  replaceOneUpsert store user_id (calculateImpactProgress user_id transport diet energy waste now)

/-! Spec-side coefficient tables, written from the claim's own wording
(transport: car=6.5, bike=0.0, walk=0.0, public=2.1; diet: meat=7.2,
vegetarian=3.8, vegan=2.9, pescatarian=4.1; energy: low=2.1,
medium=4.8, high=8.2; waste: minimal=0.8, average=2.3, high=4.1; with
the spec's listed default for every other value), to be compared with
the lookups the source performs. -/

/-- Spec-side transport coefficient. -/
def specTransportCoeff (t : String) : ℚ :=
  if t = "car" then 6.5 else if t = "bike" then 0.0
  else if t = "walk" then 0.0 else if t = "public" then 2.1 else 6.5

/-- Spec-side diet coefficient. -/
def specDietCoeff (d : String) : ℚ :=
  if d = "meat" then 7.2 else if d = "vegetarian" then 3.8
  else if d = "vegan" then 2.9 else if d = "pescatarian" then 4.1 else 7.2

/-- Spec-side energy coefficient. -/
def specEnergyCoeff (e : String) : ℚ :=
  if e = "low" then 2.1 else if e = "medium" then 4.8
  else if e = "high" then 8.2 else 4.8

/-- Spec-side waste coefficient. -/
def specWasteCoeff (w : String) : ℚ :=
  if w = "minimal" then 0.8 else if w = "average" then 2.3
  else if w = "high" then 4.1 else 2.3

/-- C4: For every input tuple of four strings, `daily_co2` is the
sum of the four per-category coefficients from the fixed tables, and
in particular `("car","meat","high","high")` gives 26.0 and
`("bike","vegan","low","minimal")` gives 5.8. -/
theorem C4_daily_is_sum_of_coefficients (t d e w : String) :
    (calculate_co2_impact t d e w).daily_co2 =
      specTransportCoeff t + specDietCoeff d + specEnergyCoeff e + specWasteCoeff w
    ∧ (calculate_co2_impact "car" "meat" "high" "high").daily_co2 = 26.0
    ∧ (calculate_co2_impact "bike" "vegan" "low" "minimal").daily_co2 = 5.8 := by
  refine ⟨rfl, ?_, ?_⟩
  · show (6.5 + 7.2 + 8.2 + 4.1 : ℚ) = 26.0
    norm_num
  · show (0.0 + 2.9 + 2.1 + 0.8 : ℚ) = 5.8
    norm_num

/-- C7: For every input tuple (unknown values included),
`weekly_co2 = daily_co2 × 7` and `yearly_co2 = daily_co2 × 365`,
within a tolerance of 0.1 (here the identities are exact). -/
theorem C7_weekly_yearly_multiples (t d e w : String) :
    |(calculate_co2_impact t d e w).weekly_co2 -
      (calculate_co2_impact t d e w).daily_co2 * 7| ≤ 1/10
    ∧ |(calculate_co2_impact t d e w).yearly_co2 -
      (calculate_co2_impact t d e w).daily_co2 * 365| ≤ 1/10 := by
  have hw : (calculate_co2_impact t d e w).weekly_co2 =
      (calculate_co2_impact t d e w).daily_co2 * 7 := rfl
  have hy : (calculate_co2_impact t d e w).yearly_co2 =
      (calculate_co2_impact t d e w).daily_co2 * 365 := rfl
  rw [hw, hy]
  norm_num

/-- C6: A category's suggestion appears iff its trigger value is
supplied; the result is a sublist of the fixed four-suggestion list
(hence between zero and four entries, in the fixed category order, and
every entry is one of the four constant strings, none of which depends
on the numeric estimate). -/
theorem C6_suggestions_characterised (t d e w : String) :
    ((sugTransport ∈ generate_suggestions t d e w ↔ t = "car") ∧
     (sugDiet ∈ generate_suggestions t d e w ↔ d = "meat") ∧
     (sugEnergy ∈ generate_suggestions t d e w ↔ e = "high") ∧
     (sugWaste ∈ generate_suggestions t d e w ↔ w = "high")) ∧
    (generate_suggestions t d e w).Sublist
      [sugTransport, sugDiet, sugEnergy, sugWaste] ∧
    (generate_suggestions t d e w).length ≤ 4 := by
  have hs : (generate_suggestions t d e w).Sublist
      [sugTransport, sugDiet, sugEnergy, sugWaste] := by
    have hsplit : [sugTransport, sugDiet, sugEnergy, sugWaste] =
        [sugTransport] ++ [sugDiet] ++ [sugEnergy] ++ [sugWaste] := rfl
    rw [generate_suggestions, hsplit]
    refine List.Sublist.append (List.Sublist.append (List.Sublist.append ?_ ?_) ?_) ?_ <;>
      split <;> simp
  refine ⟨?_, hs, hs.length_le⟩
  by_cases h1 : t = "car" <;> by_cases h2 : d = "meat" <;>
    by_cases h3 : e = "high" <;> by_cases h4 : w = "high" <;>
    simp [generate_suggestions, h1, h2, h3, h4,
      sugTransport, sugDiet, sugEnergy, sugWaste]

/-- C5 counterexample: The claim predicts that an unknown energy
value contributes the category's largest coefficient 8.2, so
`("walk","vegan","plasma","minimal")` would give 0.0+2.9+8.2+0.8; the
code instead uses the `medium` default 4.8 and returns 8.5. -/
theorem C5_counterexample :
    (calculate_co2_impact "walk" "vegan" "plasma" "minimal").daily_co2 = 8.5
    ∧ (calculate_co2_impact "walk" "vegan" "plasma" "minimal").daily_co2
        ≠ 0.0 + 2.9 + 8.2 + 0.8 := by
  constructor
  · show (0.0 + 2.9 + 4.8 + 0.8 : ℚ) = 8.5
    norm_num
  · show (0.0 + 2.9 + 4.8 + 0.8 : ℚ) ≠ 0.0 + 2.9 + 8.2 + 0.8
    norm_num

/-- C5 amended: An unknown value in a category falls back to that
category's fixed default — 6.5 for transport and 7.2 for diet (their
categories' largest coefficients), 4.8 for energy and 2.3 for waste
(the middle coefficients, strictly below the largest 8.2 and 4.1) —
and never to zero.  Each equation isolates one category's default by
fixing the other three. -/
theorem C5_unknown_value_defaults (t d e w : String)
    (ht : t ∉ (["car", "bike", "walk", "public"] : List String))
    (hd : d ∉ (["meat", "vegetarian", "vegan", "pescatarian"] : List String))
    (he : e ∉ (["low", "medium", "high"] : List String))
    (hw : w ∉ (["minimal", "average", "high"] : List String)) :
    (calculate_co2_impact t d e w).daily_co2 = 6.5 + 7.2 + 4.8 + 2.3
    ∧ (calculate_co2_impact t "meat" "high" "high").daily_co2 = 6.5 + 7.2 + 8.2 + 4.1
    ∧ (calculate_co2_impact "car" d "high" "high").daily_co2 = 6.5 + 7.2 + 8.2 + 4.1
    ∧ (calculate_co2_impact "car" "meat" e "high").daily_co2 = 6.5 + 7.2 + 4.8 + 4.1
    ∧ (calculate_co2_impact "car" "meat" "high" w).daily_co2 = 6.5 + 7.2 + 8.2 + 2.3
    ∧ ((6.5 : ℚ) ≠ 0 ∧ (7.2 : ℚ) ≠ 0 ∧ (4.8 : ℚ) ≠ 0 ∧ (2.3 : ℚ) ≠ 0)
    ∧ ((4.8 : ℚ) < 8.2 ∧ (2.3 : ℚ) < 4.1) := by
  simp only [List.mem_cons, List.mem_singleton, not_or] at ht hd he hw
  obtain ⟨ht1, ht2, ht3, ht4, -⟩ := ht
  obtain ⟨hd1, hd2, hd3, hd4, -⟩ := hd
  obtain ⟨he1, he2, he3, -⟩ := he
  obtain ⟨hw1, hw2, hw3, -⟩ := hw
  have harith : ((6.5 : ℚ) ≠ 0 ∧ (7.2 : ℚ) ≠ 0 ∧ (4.8 : ℚ) ≠ 0 ∧ (2.3 : ℚ) ≠ 0)
      ∧ ((4.8 : ℚ) < 8.2 ∧ (2.3 : ℚ) < 4.1) := by norm_num
  refine ⟨?_, ?_, ?_, ?_, ?_, harith.1, harith.2⟩ <;>
    simp [calculate_co2_impact, dictGet, transport_values, diet_values,
      energy_values, waste_values, ht1, ht2, ht3, ht4, hd1, hd2, hd3, hd4,
      he1, he2, he3, hw1, hw2, hw3]

/-- Witness for `C5_unknown_value_defaults` at concrete unknown values. -/
theorem C5_unknown_value_defaults_witness :
    (calculate_co2_impact "hoverboard" "insects" "plasma" "rich").daily_co2
      = 6.5 + 7.2 + 4.8 + 2.3 :=
  (C5_unknown_value_defaults "hoverboard" "insects" "plasma" "rich"
    (by decide) (by decide) (by decide) (by decide)).1

/-- C2: Whenever the primary provider path fails (invalid/missing
Groq key, or the Groq call raises) and the secondary path yields no
text (no usable Gemini credential, or the Gemini call raises),
`generate_ai_content` returns the fixed degraded-service string.  The
Lean embedding is a total function, mirroring that the Python original
catches every exception and never raises past its boundary. -/
theorem C2_degraded_on_total_failure (prompt sys : String) (groqKey : Option String)
    (primaryResult : Except String String) (geminiKey : Option String)
    (secondaryResult : Except String (Option String))
    (hPrimary : groqKeyValid groqKey = false ∨ ∃ e, primaryResult = .error e)
    (hSecondary : geminiKeyValid geminiKey = false ∨ ∃ e, secondaryResult = .error e) :
    generate_ai_content prompt sys groqKey primaryResult geminiKey secondaryResult
      = degradedMsg := by
  rcases hSecondary with hg | ⟨e2, he2⟩ <;>
    rcases hPrimary with hk | ⟨e1, he1⟩ <;>
      cases hgv : groqKeyValid groqKey <;>
        simp_all [generate_ai_content, Except.map]

/-- Witness for `C2_degraded_on_total_failure`: no Groq key, no Gemini
key. -/
theorem C2_degraded_witness :
    generate_ai_content "p" "s" none (.error "boom") none (.error "x") = degradedMsg :=
  C2_degraded_on_total_failure "p" "s" none (.error "boom") none (.error "x")
    (Or.inl rfl) (Or.inl rfl)

/-- C3 counterexample: With a valid Groq key and a primary success
whose text carries trailing whitespace, the returned text is not the
provider text: the source applies `.strip()` to it. -/
theorem C3_counterexample :
    generate_ai_content "p" "s" (some "gsk_live") (.ok "hello ") none (.error "x") ≠ "hello "
    ∧ generate_ai_content "p" "s" (some "gsk_live") (.ok "hello ") none (.error "x") = "hello" := by
  constructor <;> decide

/-- C3 amended: When the primary provider succeeds with text `t`,
`generate_ai_content` returns `t` with leading and trailing whitespace
removed (Python `str.strip()`), and no other change: in particular any
`t` without surrounding whitespace passes through exactly. -/
theorem C3_primary_passthrough_stripped (prompt sys : String) (groqKey : Option String)
    (t : String) (geminiKey : Option String)
    (secondaryResult : Except String (Option String))
    (hk : groqKeyValid groqKey = true) :
    generate_ai_content prompt sys groqKey (.ok t) geminiKey secondaryResult = pyStrip t
    ∧ (pyStrip t = t →
        generate_ai_content prompt sys groqKey (.ok t) geminiKey secondaryResult = t) := by
  have h1 : generate_ai_content prompt sys groqKey (.ok t) geminiKey secondaryResult
      = pyStrip t := by
    simp [generate_ai_content, hk, Except.map]
  exact ⟨h1, fun h => h1.trans h⟩

/-- Witness for `C3_primary_passthrough_stripped` at a concrete key and
text. -/
theorem C3_passthrough_witness :
    generate_ai_content "p" "s" (some "gsk_live") (.ok "hello") none (.error "x")
      = pyStrip "hello" :=
  (C3_primary_passthrough_stripped "p" "s" (some "gsk_live") "hello" none
    (.error "x") (by decide)).1

/-- C1: `get_user` on an identifier that was never inserted: the
handler's own `raise HTTPException(404, "User not found")` is caught
by its `except Exception` clause and re-raised as the generic
`HTTPException(500, "Failed to retrieve user")`, so the caller
receives the internal-error response, not the not-found signal — on
the empty store and on a store holding an unrelated user. -/
theorem C1_get_user_missing_returns_500 :
    get_user [] "ghost" = .error ⟨500, "Failed to retrieve user"⟩
    ∧ get_user [⟨"alice-id", 30, "beginner"⟩] "ghost"
        = .error ⟨500, "Failed to retrieve user"⟩
    ∧ get_user [] "ghost" ≠ .error ⟨404, "User not found"⟩ := by
  refine ⟨rfl, rfl, ?_⟩
  intro h
  simp [get_user, findOneUser] at h

/-- C8: On a non-empty interests list, when the AI response fails
to parse as JSON the returned `personalized_path` is exactly the
static fallback object: the five module titles in order — the second
interpolating the title-cased first interest — together with the
welcome-message, first-quest and daily-tip literals. -/
theorem C8_onboarding_fallback_nonempty (i0 : String) (rest : List String) :
    onboardingPersonalizedPath (i0 :: rest) none = PyVal.dict [
      ("welcome_message", .str ("Welcome to EcoQuest! Ready to become a climate hero? Based on your interests in "
        ++ String.intercalate ", " ((i0 :: rest).take 2)
        ++ ", we've created an exciting journey just for you!")),
      ("learning_modules", .list [
        .dict [("title", .str "Climate Basics"), ("icon", .str "🌍"), ("progress", .int 0)],
        .dict [("title", .str (pyTitle i0 ++ " Deep Dive")), ("icon", .str "🔍"), ("progress", .int 0)],
        .dict [("title", .str "Carbon Footprint"), ("icon", .str "👣"), ("progress", .int 0)],
        .dict [("title", .str "Green Solutions"), ("icon", .str "🌱"), ("progress", .int 0)],
        .dict [("title", .str "Take Action"), ("icon", .str "⚡"), ("progress", .int 0)]
      ]),
      ("first_quest", .str "Calculate your carbon footprint and discover 3 easy ways to reduce it today!"),
      ("daily_tip", .str "Did you know? Unplugging devices when not in use can save up to 10% on your electricity bill!")
    ]
    ∧ moduleTitles (onboardingPersonalizedPath (i0 :: rest) none) =
        ["Climate Basics", pyTitle i0 ++ " Deep Dive", "Carbon Footprint",
         "Green Solutions", "Take Action"] :=
  ⟨rfl, rfl⟩

/-- C10: On an empty interests list, the fallback path is still
produced: the welcome message interpolates the default phrase
"climate change and sustainability" and the second module title is
"Climate Deep Dive" (title-cased default interest "climate"); no
empty-list indexing is involved. -/
theorem C10_onboarding_fallback_empty_interests :
    onboardingPersonalizedPath [] none = PyVal.dict [
      ("welcome_message", .str "Welcome to EcoQuest! Ready to become a climate hero? Based on your interests in climate change and sustainability, we've created an exciting journey just for you!"),
      ("learning_modules", .list [
        .dict [("title", .str "Climate Basics"), ("icon", .str "🌍"), ("progress", .int 0)],
        .dict [("title", .str "Climate Deep Dive"), ("icon", .str "🔍"), ("progress", .int 0)],
        .dict [("title", .str "Carbon Footprint"), ("icon", .str "👣"), ("progress", .int 0)],
        .dict [("title", .str "Green Solutions"), ("icon", .str "🌱"), ("progress", .int 0)],
        .dict [("title", .str "Take Action"), ("icon", .str "⚡"), ("progress", .int 0)]
      ]),
      ("first_quest", .str "Calculate your carbon footprint and discover 3 easy ways to reduce it today!"),
      ("daily_tip", .str "Did you know? Unplugging devices when not in use can save up to 10% on your electricity bill!")
    ]
    ∧ moduleTitles (onboardingPersonalizedPath [] none) =
        ["Climate Basics", "Climate Deep Dive", "Carbon Footprint",
         "Green Solutions", "Take Action"] :=
  ⟨rfl, rfl⟩

/-- C9: If the `user_progress` store held at most one record for
user `u` (the upsert-by-key invariant), then after a successful
`calculate_impact` call it holds exactly one record for `u`, and that
record is built wholly from this request: footprint is the freshly
computed `daily_co2`, the habits are the four submitted values,
`completed_actions` is empty and `streak_days` is `0` — whatever the
previous record held. -/
theorem C9_calculate_impact_upsert (store : List UserProgressRec)
    (u t d e w : String) (now : Nat)
    (hstore : (store.filter (fun r => r.user_id == u)).length ≤ 1) :
    (calculate_impact_store store u t d e w now).filter (fun r => r.user_id == u)
      = [calculateImpactProgress u t d e w now]
    ∧ calculateImpactProgress u t d e w now =
        { user_id := u
          current_co2_footprint := (calculate_co2_impact t d e w).daily_co2
          daily_habits := [("transport", t), ("diet", d), ("energy", e), ("waste", w)]
          completed_actions := []
          streak_days := 0
          last_activity := now } := by
  refine ⟨?_, rfl⟩
  unfold calculate_impact_store
  induction store with
  | nil =>
    simp [replaceOneUpsert, List.filter, calculateImpactProgress]
  | cons r rs ih =>
    rcases eq_or_ne r.user_id u with h | h
    · rw [List.filter_cons] at hstore
      simp only [h, beq_self_eq_true, if_pos] at hstore
      have hnil : rs.filter (fun r => r.user_id == u) = [] := by
        rw [List.length_cons] at hstore
        exact List.length_eq_zero.mp (by omega)
      simp [replaceOneUpsert, h, List.filter_cons, calculateImpactProgress, hnil]
    · rw [List.filter_cons] at hstore
      simp only [beq_iff_eq, h, if_neg, if_false] at hstore
      simp [replaceOneUpsert, h, List.filter_cons, ih hstore]

/-- Witness for `C9_calculate_impact_upsert`: a store holding one stale
record for "alice" is wholesale-replaced. -/
theorem C9_upsert_witness :
    (calculate_impact_store
        [⟨"alice", 99, [("transport", "bike")], ["old-action"], 5, 0⟩]
        "alice" "car" "meat" "high" "high" 42).filter (fun r => r.user_id == "alice")
      = [calculateImpactProgress "alice" "car" "meat" "high" "high" 42] :=
  (C9_calculate_impact_upsert
    [⟨"alice", 99, [("transport", "bike")], ["old-action"], 5, 0⟩]
    "alice" "car" "meat" "high" "high" 42 (by decide)).1

end EcoQuest
